import Mathlib

/-!
Shallow embedding of the MetaMCP server (Python) in Lean 4.

The repository is a thin gateway exposing four tools (send message, get
messages, post content, get analytics) over three social-platform HTTP
APIs plus a Mock adapter.  We embed the pure decision logic of the code:

* `src/errors.py`       — error codes and `map_meta_api_error`;
* `src/config.py`       — `Settings.get_platform_token`,
                          `Settings.validate_platform_config`;
* `src/meta_client.py`  — `MetaClient.get_adapter`,
                          `MetaClient.send_message_with_retry` (tenacity
                          retry combinator made explicit);
* `src/validators.py`   — E.164 phone validation, post-content validation;
* `src/adapters/*.py`   — payload construction and response handling of
                          the Facebook, Instagram, WhatsApp and Mock
                          adapters.

Side effects are made explicit: each adapter operation takes the HTTP
response(s) its outbound call(s) would receive as arguments and returns,
alongside its `Except` result, the number of HTTP requests it issued (and,
where relevant, the exact request payload it would send).  Python
truthiness on optional strings and lists is modelled explicitly.
-/

namespace MetaMCP

/-! ## Error taxonomy (`src/errors.py`) -/

namespace ErrorCode

def INVALID_PLATFORM : String := "INVALID_PLATFORM"

def AUTH_FAILED : String := "AUTH_FAILED"

def API_ERROR : String := "API_ERROR"

def MISSING_IDENTIFIER : String := "MISSING_IDENTIFIER"

def PLATFORM_NOT_SUPPORTED : String := "PLATFORM_NOT_SUPPORTED"

def MISSING_CONTENT : String := "MISSING_CONTENT"

def INSUFFICIENT_PERMISSIONS : String := "INSUFFICIENT_PERMISSIONS"

def RATE_LIMIT_EXCEEDED : String := "RATE_LIMIT_EXCEEDED"

def VALIDATION_ERROR : String := "VALIDATION_ERROR"

end ErrorCode

/-- A raised `MetaMCPError(error_code, message)`. -/
structure MetaMCPError where
  error_code : String
  message : String
  deriving Repr, DecidableEq

/-- `PlatformNotSupportedError(platform, operation)`. -/
def PlatformNotSupportedError (platform operation : String) : MetaMCPError :=
  ⟨ErrorCode.PLATFORM_NOT_SUPPORTED,
    "Operation " ++ operation ++ " is not supported on platform " ++ platform⟩

/-- `AuthenticationError(message)`. -/
def AuthenticationError (message : String) : MetaMCPError :=
  ⟨ErrorCode.AUTH_FAILED, message⟩

/-- `ValidationError(message)`. -/
def ValidationError (message : String) : MetaMCPError :=
  ⟨ErrorCode.VALIDATION_ERROR, message⟩

/-! Substring membership, modelling the Python `needle in hay` test on
strings (empty needle is contained in every string). -/

/-- `needle` occurs as a contiguous sublist of `hay`. -/
def listContainsSub (needle : List Char) : List Char → Bool
  | [] => needle.isEmpty
  | c :: rest => needle.isPrefixOf (c :: rest) || listContainsSub needle rest

/-- Python `needle in hay` on strings. -/
def strContains (hay needle : String) : Bool :=
  listContainsSub needle.toList hay.toList

/-- Python `s.lower()` (ASCII case folding suffices for the substrings the
code searches for). -/
def strLower (s : String) : String :=
  ⟨s.toList.map Char.toLower⟩

/-- The vendor error object inside a Meta API error response body:
`{"error": {"type": ..., "message": ...}}` with every field optional. -/
structure VendorError where
  type_ : Option String
  message : Option String
  deriving Repr, DecidableEq

/-- A vendor error response body; the `error` key itself may be absent. -/
structure VendorPayload where
  error : Option VendorError
  deriving Repr, DecidableEq

/-- `response_data.get("error", {}).get("type", "")`. -/
def VendorPayload.errorType (p : VendorPayload) : String :=
  match p.error with
  | none => ""
  | some e => e.type_.getD ""

/-- `response_data.get("error", {}).get("message", "")`. -/
def VendorPayload.errorMessage (p : VendorPayload) : String :=
  match p.error with
  | none => ""
  | some e => e.message.getD ""

/-- `map_meta_api_error(status_code, response_data)` from `src/errors.py`. -/
def map_meta_api_error (status_code : Nat) (response_data : VendorPayload) : String :=
  if status_code = 401 || status_code = 403 then
    ErrorCode.AUTH_FAILED
  else if status_code = 429 then
    ErrorCode.RATE_LIMIT_EXCEEDED
  else if status_code = 400 then
    if strContains response_data.errorType "OAuthException" then
      ErrorCode.AUTH_FAILED
    else if strContains (strLower response_data.errorMessage) "permission" then
      ErrorCode.INSUFFICIENT_PERMISSIONS
    else
      ErrorCode.VALIDATION_ERROR
  else if 500 ≤ status_code then
    ErrorCode.API_ERROR
  else
    ErrorCode.API_ERROR

/-! ## Configuration (`src/config.py`) -/

/-- The fields of `Settings` the dispatch logic reads.  Unset environment
variables are the empty string (the Python defaults). -/
structure Settings where
  facebook_page_access_token : String
  instagram_access_token : String
  whatsapp_access_token : String
  whatsapp_phone_number_id : String
  meta_api_version : String
  demo_mode : Bool
  deriving Repr, DecidableEq

/-- `Settings.get_platform_token`: the token-map lookup followed by
Python `or None`, which turns the empty string into `None`. -/
def Settings.get_platform_token (s : Settings) (platform : String) : Option String :=
  let fromMap : Option String :=
    if platform == "facebook" then some s.facebook_page_access_token
    else if platform == "instagram" then some s.instagram_access_token
    else if platform == "whatsapp" then some s.whatsapp_access_token
    else none
  match fromMap with
  | some t => if t == "" then none else some t
  | none => none

/-- `Settings.validate_platform_config`. -/
def Settings.validate_platform_config (s : Settings) (platform : String) : Bool :=
  if s.demo_mode then true
  else
    match s.get_platform_token platform with
    | none => false
    | some _ =>
      if platform == "whatsapp" && s.whatsapp_phone_number_id == "" then false
      else true

/-! ## Adapter construction (`src/meta_client.py`, `MetaClient.get_adapter`) -/

/-- The adapter instances `get_adapter` can construct, with the
constructor arguments the code passes. -/
inductive Adapter where
  | mock (access_token : String) (platform : String)
  | facebook (access_token : String) (api_version : String)
  | instagram (access_token : String) (api_version : String)
  | whatsapp (access_token : String) (phone_number_id : String) (api_version : String)
  deriving Repr, DecidableEq

/-- `MetaClient.get_adapter(platform)`. -/
def get_adapter (s : Settings) (platform : String) : Except MetaMCPError Adapter :=
  if s.demo_mode then
    .ok (.mock "demo" platform)
  else if ! s.validate_platform_config platform then
    .error (AuthenticationError
      ("Platform " ++ platform ++ " is not configured. " ++
       "Please provide the required access token in .env file."))
  else
    match s.get_platform_token platform with
    | none => .error (AuthenticationError
        ("No access token configured for platform: " ++ platform))
    | some token =>
      if platform == "facebook" then
        .ok (.facebook token s.meta_api_version)
      else if platform == "instagram" then
        .ok (.instagram token s.meta_api_version)
      else if platform == "whatsapp" then
        .ok (.whatsapp token s.whatsapp_phone_number_id s.meta_api_version)
      else
        .error ⟨ErrorCode.INVALID_PLATFORM, "Unknown platform: " ++ platform⟩

/-- The error code of an `Except` result, if it is an error. -/
def exceptErrCode {α : Type} : Except MetaMCPError α → Option String
  | .error e => some e.error_code
  | .ok _ => none

/-! ## HTTP model

Each adapter operation receives, for every outbound request it may issue,
the `HttpResponse` that request would get back, and reports how many
requests it actually issued.  `response.raise_for_status()` succeeds
exactly on 2xx status codes; on failure the adapters feed the response
body to `map_meta_api_error`. -/

/-- An HTTP response with a typed JSON body. -/
structure HttpResponse (β : Type) where
  status_code : Nat
  body : β
  deriving Repr, DecidableEq

/-- `httpx` success predicate: `raise_for_status` does not raise. -/
def is_success (status_code : Nat) : Bool :=
  200 ≤ status_code && status_code < 300

/-! ## WhatsApp adapter (`src/adapters/whatsapp.py`) -/

/-- The JSON payload of a WhatsApp `/messages` POST.  `text` holds the
`{"body": content}` string; after `del payload["text"]` it is `none`. -/
structure WaPayload where
  messaging_product : String
  to_ : String
  type_ : String
  text : Option String
  image : Option String
  deriving Repr, DecidableEq

/-- One element of the `messages` array in a WhatsApp send response. -/
structure WaMessage where
  id : String
  deriving Repr, DecidableEq

/-- WhatsApp send-response body: the `messages` key may be absent
(`data.get("messages", [])`), and an error object may be present. -/
structure WaBody where
  messages : Option (List WaMessage)
  error : Option VendorError
  deriving Repr, DecidableEq

/-- Payload construction in `WhatsAppAdapter.send_message`: text payload,
switched to an image payload (with the text entry deleted) when
`media_url` is truthy. -/
def WhatsAppAdapter.buildPayload (recipient_id content : String)
    (media_url : Option String) : WaPayload :=
  let base : WaPayload := ⟨"whatsapp", recipient_id, "text", some content, none⟩
  match media_url with
  | none => base
  | some m =>
    if m == "" then base
    else { base with type_ := "image", image := some m, text := none }

/-- Result shape of the WhatsApp send: `{"message_id": ...}`. -/
structure WaSendResult where
  message_id : String
  deriving Repr, DecidableEq

/-- `WhatsAppAdapter.send_message`: returns the request payload, the
number of HTTP calls issued, and the outcome.  On 2xx the message id is
`messages[0]["id"]`, or `"unknown"` when the array is absent or empty. -/
def WhatsAppAdapter.send_message (recipient_id content : String)
    (media_url : Option String) (resp : HttpResponse WaBody) :
    WaPayload × Nat × Except MetaMCPError WaSendResult :=
  let payload := WhatsAppAdapter.buildPayload recipient_id content media_url
  if is_success resp.status_code then
    let msgs := resp.body.messages.getD []
    let message_id := match msgs with
      | [] => "unknown"
      | m :: _ => m.id
    (payload, 1, .ok ⟨message_id⟩)
  else
    (payload, 1, .error
      ⟨map_meta_api_error resp.status_code ⟨resp.body.error⟩, "HTTPStatusError"⟩)

/-- `WhatsAppAdapter.get_messages`: unconditionally raises
`PlatformNotSupportedError` before any HTTP interaction. -/
def WhatsAppAdapter.get_messages (conversation_id recipient_id : Option String)
    (limit : Int) : Nat × Except MetaMCPError (List WaMessage) :=
  (0, .error (PlatformNotSupportedError "whatsapp" "get_messages"))

/-- `WhatsAppAdapter.post_content`: unconditionally raises
`PlatformNotSupportedError` before any HTTP interaction. -/
def WhatsAppAdapter.post_content (content : Option String)
    (media_urls : Option (List String)) (target_id : Option String) :
    Nat × Except MetaMCPError WaSendResult :=
  (0, .error (PlatformNotSupportedError "whatsapp" "post_content"))

/-- `WhatsAppAdapter.get_analytics`: unconditionally raises
`PlatformNotSupportedError` before any HTTP interaction. -/
def WhatsAppAdapter.get_analytics (metric period : String) :
    Nat × Except MetaMCPError WaSendResult :=
  (0, .error (PlatformNotSupportedError "whatsapp" "get_analytics"))

/-! ## Facebook and Instagram adapters
(`src/adapters/facebook.py`, `src/adapters/instagram.py`) -/

/-- A Facebook image attachment `{"type": "image", "payload": {"url": ...,
"is_reusable": true}}`. -/
structure FbAttachment where
  url : String
  reusable : Bool
  deriving Repr, DecidableEq

/-- The `message` object of a Facebook Messenger send payload. -/
structure FbMessage where
  text : Option String
  attachment : Option FbAttachment
  deriving Repr, DecidableEq

/-- Message construction in `FacebookAdapter.send_message`: text message;
when `media_url` is truthy the message becomes an attachment, and the text
is re-added alongside it when `content` is truthy. -/
def FacebookAdapter.buildMessage (content : String) (media_url : Option String) :
    FbMessage :=
  match media_url with
  | none => ⟨some content, none⟩
  | some m =>
    if m == "" then ⟨some content, none⟩
    else if content == "" then ⟨none, some ⟨m, true⟩⟩
    else ⟨some content, some ⟨m, true⟩⟩

/-- An Instagram image attachment `{"type": "image", "payload":
{"url": ...}}` (no `is_reusable` flag). -/
structure IgAttachment where
  url : String
  deriving Repr, DecidableEq

/-- The `message` object of an Instagram Direct send payload. -/
structure IgMessage where
  text : Option String
  attachment : Option IgAttachment
  deriving Repr, DecidableEq

/-- Message construction in `InstagramAdapter.send_message`: text message;
when `media_url` is truthy the message is replaced by the attachment
alone, dropping the text. -/
def InstagramAdapter.buildMessage (content : String) (media_url : Option String) :
    IgMessage :=
  match media_url with
  | none => ⟨some content, none⟩
  | some m =>
    if m == "" then ⟨some content, none⟩
    else ⟨none, some ⟨m⟩⟩

/-- Facebook/Instagram send-response body: `message_id` may be absent
(`data.get("message_id")` then yields `None`). -/
structure FbSendBody where
  message_id : Option String
  error : Option VendorError
  deriving Repr, DecidableEq

/-- Result shape of a Facebook/Instagram send: `{"message_id":
data.get("message_id")}`, so the id is optional. -/
structure FbSendResult where
  message_id : Option String
  deriving Repr, DecidableEq

/-- `FacebookAdapter.send_message`. -/
def FacebookAdapter.send_message (recipient_id content : String)
    (media_url : Option String) (resp : HttpResponse FbSendBody) :
    FbMessage × Nat × Except MetaMCPError FbSendResult :=
  let message := FacebookAdapter.buildMessage content media_url
  if is_success resp.status_code then
    (message, 1, .ok ⟨resp.body.message_id⟩)
  else
    (message, 1, .error
      ⟨map_meta_api_error resp.status_code ⟨resp.body.error⟩, "HTTPStatusError"⟩)

/-- `InstagramAdapter.send_message`. -/
def InstagramAdapter.send_message (recipient_id content : String)
    (media_url : Option String) (resp : HttpResponse FbSendBody) :
    IgMessage × Nat × Except MetaMCPError FbSendResult :=
  let message := InstagramAdapter.buildMessage content media_url
  if is_success resp.status_code then
    (message, 1, .ok ⟨resp.body.message_id⟩)
  else
    (message, 1, .error
      ⟨map_meta_api_error resp.status_code ⟨resp.body.error⟩, "HTTPStatusError"⟩)

/-- A Graph API response body carrying an object id (`data.get("id")`),
used by Instagram container creation and publication. -/
structure IdBody where
  id : Option String
  error : Option VendorError
  deriving Repr, DecidableEq

/-- Result shape of `post_content`: `{"post_id": ...}`. -/
structure PostResult where
  post_id : Option String
  deriving Repr, DecidableEq

/-- The adapter-level missing-media test in `InstagramAdapter.post_content`:
`not media_urls or not media_urls[0]`. -/
def igMediaMissing : Option (List String) → Bool
  | none => true
  | some [] => true
  | some (u :: _) => u == ""

/-- `InstagramAdapter.post_content`: rejects missing media with
`MISSING_CONTENT` before any HTTP call; otherwise creates a media
container (first call) and, only if that succeeded, publishes it
(second call). -/
def InstagramAdapter.post_content (content : Option String)
    (media_urls : Option (List String)) (target_id : Option String)
    (containerResp publishResp : HttpResponse IdBody) :
    Nat × Except MetaMCPError PostResult :=
  if igMediaMissing media_urls then
    (0, .error ⟨ErrorCode.MISSING_CONTENT, "Instagram posts require media_urls"⟩)
  else if is_success containerResp.status_code then
    if is_success publishResp.status_code then
      (2, .ok ⟨publishResp.body.id⟩)
    else
      (2, .error
        ⟨map_meta_api_error publishResp.status_code ⟨publishResp.body.error⟩,
         "HTTPStatusError"⟩)
  else
    (1, .error
      ⟨map_meta_api_error containerResp.status_code ⟨containerResp.body.error⟩,
       "HTTPStatusError"⟩)

/-! ## Mock adapter (`src/adapters/mock.py`) -/

/-- One synthesized record of `MockPlatformAdapter.get_messages`. -/
structure MockMessage where
  id : String
  created_time : String
  from_id : String
  to_id : String
  message : String
  deriving Repr, DecidableEq

/-- `MockPlatformAdapter.get_messages`: `min(limit, 3)` synthesized
records, independent of the requested identifiers.  `now` stands for the
wall-clock timestamp; `limit` is a Python `int`, so `range` of a negative
bound is empty. -/
def MockPlatformAdapter.get_messages (now : String)
    (conversation_id recipient_id : Option String) (limit : Int) :
    List MockMessage :=
  (List.range (min limit 3).toNat).map fun i =>
    ⟨"mock_msg_" ++ toString i, now, "user_" ++ toString i, "page_demo",
     "This is mock message #" ++ toString (i + 1)⟩

/-! ## Validators (`src/validators.py`) -/

/-- The Unicode category-Nd digit ranges beyond ASCII (Unicode 15.1, the
table current Python builds use for `\d`), as inclusive code-point
intervals. -/
def ndRanges : List (Nat × Nat) :=
  [(0x0660, 0x0669), (0x06F0, 0x06F9), (0x07C0, 0x07C9), (0x0966, 0x096F),
   (0x09E6, 0x09EF), (0x0A66, 0x0A6F), (0x0AE6, 0x0AEF), (0x0B66, 0x0B6F),
   (0x0BE6, 0x0BEF), (0x0C66, 0x0C6F), (0x0CE6, 0x0CEF), (0x0D66, 0x0D6F),
   (0x0DE6, 0x0DEF), (0x0E50, 0x0E59), (0x0ED0, 0x0ED9), (0x0F20, 0x0F29),
   (0x1040, 0x1049), (0x1090, 0x1099), (0x17E0, 0x17E9), (0x1810, 0x1819),
   (0x1946, 0x194F), (0x19D0, 0x19D9), (0x1A80, 0x1A89), (0x1A90, 0x1A99),
   (0x1B50, 0x1B59), (0x1BB0, 0x1BB9), (0x1C40, 0x1C49), (0x1C50, 0x1C59),
   (0xA620, 0xA629), (0xA8D0, 0xA8D9), (0xA900, 0xA909), (0xA9D0, 0xA9D9),
   (0xA9F0, 0xA9F9), (0xAA50, 0xAA59), (0xABF0, 0xABF9), (0xFF10, 0xFF19),
   (0x104A0, 0x104A9), (0x10D30, 0x10D39), (0x11066, 0x1106F),
   (0x110F0, 0x110F9), (0x11136, 0x1113F), (0x111D0, 0x111D9),
   (0x112F0, 0x112F9), (0x11450, 0x11459), (0x114D0, 0x114D9),
   (0x11650, 0x11659), (0x116C0, 0x116C9), (0x11730, 0x11739),
   (0x118E0, 0x118E9), (0x11950, 0x11959), (0x11C50, 0x11C59),
   (0x11D50, 0x11D59), (0x11DA0, 0x11DA9), (0x11F50, 0x11F59),
   (0x16A60, 0x16A69), (0x16AC0, 0x16AC9), (0x16B50, 0x16B59),
   (0x1D7CE, 0x1D7FF), (0x1E140, 0x1E149), (0x1E2F0, 0x1E2F9),
   (0x1E4F0, 0x1E4F9), (0x1E950, 0x1E959), (0x1FBF0, 0x1FBF9)]

/-- Python `\d` on a `str` pattern: any Unicode decimal digit (category
Nd) — the ASCII digits plus the non-ASCII Nd ranges. -/
def pyIsDecimalDigit (c : Char) : Bool :=
  c.isDigit || ndRanges.any fun r => r.1 ≤ c.toNat && c.toNat ≤ r.2

/-- A run of one to fourteen characters matched by `\d{1,14}`. -/
def e164DigitRun (ds : List Char) : Bool :=
  ds.all pyIsDecimalDigit && decide (1 ≤ ds.length) && decide (ds.length ≤ 14)

/-- The E.164 pattern `^\+[1-9]\d{1,14}$` read strictly, as the spec
states it: an anchored full match with ASCII digits and no trailing
newline.  Kept for comparison with the code's actual `re.match`
semantics, which are looser. -/
def e164_pattern_strict (phone : String) : Bool :=
  match phone.toList with
  | c :: d :: rest =>
    c == '+' && ('1' ≤ d && d ≤ '9') && rest.all Char.isDigit &&
      decide (1 ≤ rest.length) && decide (rest.length ≤ 14)
  | _ => false

/-- `validate_e164_phone` from `src/validators.py`:
`bool(re.match(r"^\+[1-9]\d{1,14}$", phone))` with Python `re`
semantics — `\d` matches any Unicode decimal digit, and `$` matches at
the end of the string or just before a single trailing newline. -/
def validate_e164_phone (phone : String) : Bool :=
  match phone.toList with
  | c :: d :: rest =>
    c == '+' && ('1' ≤ d && d ≤ '9') &&
      (e164DigitRun rest ||
        (rest.getLast? == some '\n' && e164DigitRun rest.dropLast))
  | _ => false

/-- `validate_whatsapp_recipient`: raises `ValidationError` unless the
recipient id is a valid E.164 phone number. -/
def validate_whatsapp_recipient (recipient_id : String) :
    Except MetaMCPError Unit :=
  if validate_e164_phone recipient_id then .ok ()
  else .error (ValidationError
    ("WhatsApp recipient_id must be in E.164 format, got: " ++ recipient_id))

/-- Python truthiness of an optional string: `None` and `""` are falsy. -/
def optStrFalsy : Option String → Bool
  | none => true
  | some s => s == ""

/-- Python truthiness of an optional list: `None` and `[]` are falsy. -/
def optListFalsy : Option (List String) → Bool
  | none => true
  | some l => l.isEmpty

/-- `validate_url`, restricted to what `urlparse` yields on http(s) URLs:
the scheme must be `http` or `https` and the netloc (authority between
`//` and the next `/`, `?` or `#`) must be nonempty. -/
def validate_url (url : String) : Except MetaMCPError Unit :=
  let check (rest : List Char) : Bool :=
    ! (rest.takeWhile fun c => c ≠ '/' && c ≠ '?' && c ≠ '#').isEmpty
  if url.startsWith "http://" then
    if check (url.toList.drop 7) then .ok ()
    else .error (ValidationError ("Invalid URL: " ++ url))
  else if url.startsWith "https://" then
    if check (url.toList.drop 8) then .ok ()
    else .error (ValidationError ("Invalid URL: " ++ url))
  else
    .error (ValidationError ("URL must use http or https protocol: " ++ url))

/-- The URL loop at the end of `validate_post_content_request`. -/
def validate_urls : List String → Except MetaMCPError Unit
  | [] => .ok ()
  | u :: rest =>
    match validate_url u with
    | .ok () => validate_urls rest
    | .error e => .error e

/-- `validate_post_content_request(platform, content, media_urls)`. -/
def validate_post_content_request (platform : String) (content : Option String)
    (media_urls : Option (List String)) : Except MetaMCPError Unit :=
  if optStrFalsy content && optListFalsy media_urls then
    .error (ValidationError
      "At least one of content or media_urls must be provided")
  else if platform == "instagram" && optListFalsy media_urls then
    .error (ValidationError
      "Instagram posts require media_urls (text-only posts not supported)")
  else
    match media_urls with
    | none => .ok ()
    | some urls => validate_urls urls

/-- `validate_get_messages_request(conversation_id, recipient_id)`. -/
def validate_get_messages_request (conversation_id recipient_id : Option String) :
    Except MetaMCPError Unit :=
  if optStrFalsy conversation_id && optStrFalsy recipient_id then
    .error (ValidationError
      "Either conversation_id or recipient_id must be provided")
  else .ok ()

/-! ## Server dispatch prefix (`src/server.py`, `handle_send_message`)

`handle_send_message` first runs the WhatsApp-specific recipient
validation, then resolves the adapter via `get_adapter`; only then does it
call the adapter.  We embed this prefix, which is what decides whether a
request fails before dispatch and with which error code. -/

/-- The validation-and-dispatch prefix of `handle_send_message`: the
WhatsApp recipient check runs first, then adapter resolution. -/
def handle_send_message_dispatch (s : Settings) (platform recipient_id : String) :
    Except MetaMCPError Adapter :=
  match (if platform == "whatsapp"
         then validate_whatsapp_recipient recipient_id
         else .ok ()) with
  | .error e => .error e
  | .ok () => get_adapter s platform

/-! ## Retry combinator (`src/meta_client.py`,
`MetaClient.send_message_with_retry`)

The method body (`get_adapter` followed by `adapter.send_message`) is
abstracted as an attempt function giving the outcome of the n-th try;
tenacity's `retry(stop=stop_after_attempt(3),
wait=wait_exponential(multiplier=1, min=1, max=10), reraise=True)` becomes
an explicit loop returning the number of attempts made, the backoff waits
slept between attempts, and the final outcome. -/

/-- tenacity `wait_exponential(multiplier, min, max)` evaluated after the
`attempt_number`-th failed attempt:
`max(max(0, min), min(multiplier * 2 ** attempt_number, max))`. -/
def wait_exponential (multiplier min_ max_ attempt_number : Nat) : Nat :=
  Nat.max (Nat.max 0 min_) (Nat.min (multiplier * 2 ^ attempt_number) max_)

/-- The tenacity retry loop with `reraise=True`.  `n` is the current
attempt number; `remaining` counts how many further attempts the stop
condition still allows (for `stop_after_attempt(3)` starting at attempt 1,
`remaining = 2`).  On success stop; on failure with retries remaining,
sleep `waitFn n` and try again; on failure with none remaining, re-raise
the last error unchanged.  Returns (attempts made, waits slept, outcome). -/
def retryGo {E A : Type} (attempt : Nat → Except E A) (waitFn : Nat → Nat) :
    Nat → Nat → Nat × List Nat × Except E A
  | n, 0 => (1, [], attempt n)
  | n, remaining + 1 =>
    match attempt n with
    | .ok a => (1, [], .ok a)
    | .error _ =>
      let rest := retryGo attempt waitFn (n + 1) remaining
      (rest.1 + 1, waitFn n :: rest.2.1, rest.2.2)

/-- `MetaClient.send_message_with_retry`: the retry policy the decorator
attaches — up to 3 attempts, `wait_exponential(multiplier=1, min=1,
max=10)` backoff, re-raising the final failure. -/
def send_message_with_retry {A : Type}
    (attempt : Nat → Except MetaMCPError A) : Nat × List Nat × Except MetaMCPError A :=
  retryGo attempt (wait_exponential 1 1 10) 1 2

/-- The other three client operations (`get_messages`, `post_content`,
`get_analytics`) carry no retry decorator anywhere on their path
(`src/server.py` handlers call the adapter method once): a single attempt
whose outcome is returned as is. -/
def call_without_retry {E A : Type} (attempt : Nat → Except E A) :
    Nat × List Nat × Except E A :=
  (1, [], attempt 1)

/-! ## Theorems -/

/-- C1: `map_meta_api_error` returns AUTH_FAILED for status 401 or 403,
RATE_LIMIT_EXCEEDED for 429; for 400 it returns AUTH_FAILED when the
payload's error type contains "OAuthException", INSUFFICIENT_PERMISSIONS
when the error message contains "permission" case-insensitively, and
VALIDATION_ERROR otherwise; API_ERROR for every status ≥ 500; and
API_ERROR for every remaining status. -/
theorem C1_map_meta_api_error_mapping (s : Nat) (p : VendorPayload) :
    ((s = 401 ∨ s = 403) → map_meta_api_error s p = ErrorCode.AUTH_FAILED) ∧
    (s = 429 → map_meta_api_error s p = ErrorCode.RATE_LIMIT_EXCEEDED) ∧
    (s = 400 → map_meta_api_error s p =
      (if strContains p.errorType "OAuthException" then ErrorCode.AUTH_FAILED
       else if strContains (strLower p.errorMessage) "permission" then
         ErrorCode.INSUFFICIENT_PERMISSIONS
       else ErrorCode.VALIDATION_ERROR)) ∧
    (500 ≤ s → map_meta_api_error s p = ErrorCode.API_ERROR) ∧
    (s ≠ 401 → s ≠ 403 → s ≠ 429 → s ≠ 400 →
      map_meta_api_error s p = ErrorCode.API_ERROR) := by
  refine ⟨?_, ?_, ?_, ?_, ?_⟩
  · rintro (rfl | rfl) <;> simp [map_meta_api_error]
  · rintro rfl; simp [map_meta_api_error]
  · rintro rfl; simp [map_meta_api_error]
  · intro h
    have h1 : s ≠ 401 := by omega
    have h2 : s ≠ 403 := by omega
    have h3 : s ≠ 429 := by omega
    have h4 : s ≠ 400 := by omega
    simp [map_meta_api_error, h1, h2, h3, h4]
  · intro h1 h2 h3 h4
    simp [map_meta_api_error, h1, h2, h3, h4]

/-- Witness for C1: a 400 response whose vendor error type contains
"OAuthException" maps to AUTH_FAILED. -/
theorem C1_witness :
    map_meta_api_error 400 ⟨some ⟨some "OAuthException", none⟩⟩ =
      ErrorCode.AUTH_FAILED := by
  have h :=
    (C1_map_meta_api_error_mapping 400 ⟨some ⟨some "OAuthException", none⟩⟩).2.2.1 rfl
  rw [h]
  decide

/-- C2 counterexample: with demo mode off, fully populated credentials and
the unknown platform name "twitter", `get_adapter` fails with AUTH_FAILED,
not with INVALID_PLATFORM as the claim states — the token lookup returns
nothing for an unknown platform, so the configuration check raises an
`AuthenticationError` before the platform-name dispatch is reached. -/
theorem C2_counterexample :
    exceptErrCode
        (get_adapter ⟨"tokF", "tokI", "tokW", "phone1", "v21.0", false⟩ "twitter") =
      some ErrorCode.AUTH_FAILED ∧
    ErrorCode.AUTH_FAILED ≠ ErrorCode.INVALID_PLATFORM := by
  constructor
  · rfl
  · decide

/-- C2 (amended): if demo mode is on, `get_adapter` returns the Mock
adapter regardless of credentials; if demo mode is off and the platform's
configuration is incomplete, it fails with AUTH_FAILED; and if demo mode
is off and the platform name is not facebook/instagram/whatsapp, it also
fails with AUTH_FAILED (the INVALID_PLATFORM branch is unreachable,
because an unknown platform never has a configured token). -/
theorem C2_get_adapter_dispatch (s : Settings) (platform : String) :
    (s.demo_mode = true → get_adapter s platform = .ok (.mock "demo" platform)) ∧
    (s.demo_mode = false → s.validate_platform_config platform = false →
      exceptErrCode (get_adapter s platform) = some ErrorCode.AUTH_FAILED) ∧
    (s.demo_mode = false → platform ≠ "facebook" → platform ≠ "instagram" →
      platform ≠ "whatsapp" →
      exceptErrCode (get_adapter s platform) = some ErrorCode.AUTH_FAILED) := by
  refine ⟨?_, ?_, ?_⟩
  · intro hd
    simp [get_adapter, hd]
  · intro hd hv
    simp [get_adapter, hd, hv, exceptErrCode, AuthenticationError]
  · intro hd h1 h2 h3
    have htok : s.get_platform_token platform = none := by
      simp [Settings.get_platform_token, h1, h2, h3]
    have hv : s.validate_platform_config platform = false := by
      simp [Settings.validate_platform_config, hd, htok]
    simp [get_adapter, hd, hv, exceptErrCode, AuthenticationError]

/-- Witness for C2: in demo mode with no credentials configured,
`get_adapter "facebook"` returns the Mock adapter. -/
theorem C2_witness :
    get_adapter ⟨"", "", "", "", "v21.0", true⟩ "facebook" =
      .ok (.mock "demo" "facebook") :=
  (C2_get_adapter_dispatch ⟨"", "", "", "", "v21.0", true⟩ "facebook").1 rfl

/-- C3: for every input, the WhatsApp adapter's `get_messages`,
`post_content` and `get_analytics` fail unconditionally with a
PLATFORM_NOT_SUPPORTED error and issue zero HTTP calls. -/
theorem C3_whatsapp_unsupported_ops (conversation_id recipient_id : Option String)
    (limit : Int) (content : Option String) (media_urls : Option (List String))
    (target_id : Option String) (metric period : String) :
    WhatsAppAdapter.get_messages conversation_id recipient_id limit =
      (0, .error (PlatformNotSupportedError "whatsapp" "get_messages")) ∧
    WhatsAppAdapter.post_content content media_urls target_id =
      (0, .error (PlatformNotSupportedError "whatsapp" "post_content")) ∧
    WhatsAppAdapter.get_analytics metric period =
      (0, .error (PlatformNotSupportedError "whatsapp" "get_analytics")) ∧
    (PlatformNotSupportedError "whatsapp" "get_messages").error_code =
      ErrorCode.PLATFORM_NOT_SUPPORTED ∧
    (PlatformNotSupportedError "whatsapp" "post_content").error_code =
      ErrorCode.PLATFORM_NOT_SUPPORTED ∧
    (PlatformNotSupportedError "whatsapp" "get_analytics").error_code =
      ErrorCode.PLATFORM_NOT_SUPPORTED :=
  ⟨rfl, rfl, rfl, rfl, rfl, rfl⟩

/-- C5: Instagram `post_content` with missing media (absent, empty, or
empty first element) fails with MISSING_CONTENT and zero HTTP calls; the
validation layer's instagram missing-media condition implies the
adapter-level condition, and every request the validator rejects for
missing media is also rejected by the adapter-level check. -/
theorem C5_instagram_missing_media (content : Option String)
    (media_urls : Option (List String)) (target_id : Option String)
    (containerResp publishResp : HttpResponse IdBody) :
    (igMediaMissing media_urls = true →
      InstagramAdapter.post_content content media_urls target_id
          containerResp publishResp =
        (0, .error ⟨ErrorCode.MISSING_CONTENT, "Instagram posts require media_urls"⟩)) ∧
    (optListFalsy media_urls = true → igMediaMissing media_urls = true) ∧
    (optListFalsy media_urls = true →
      exceptErrCode (validate_post_content_request "instagram" content media_urls) =
        some ErrorCode.VALIDATION_ERROR ∧
      InstagramAdapter.post_content content media_urls target_id
          containerResp publishResp =
        (0, .error ⟨ErrorCode.MISSING_CONTENT, "Instagram posts require media_urls"⟩)) := by
  have hmm : optListFalsy media_urls = true → igMediaMissing media_urls = true := by
    intro h
    match media_urls with
    | none => rfl
    | some [] => rfl
    | some (u :: rest) => simp [optListFalsy] at h
  refine ⟨?_, hmm, ?_⟩
  · intro h
    simp [InstagramAdapter.post_content, h]
  · intro h
    refine ⟨?_, by simp [InstagramAdapter.post_content, hmm h]⟩
    by_cases hc : optStrFalsy content = true
    · simp [validate_post_content_request, h, hc, exceptErrCode, ValidationError]
    · simp [validate_post_content_request, h, hc, exceptErrCode, ValidationError]

/-- Witness for C5: an instagram text-only request (no media) is rejected
by the validator with VALIDATION_ERROR and by the adapter with
MISSING_CONTENT before any HTTP call. -/
theorem C5_witness :
    exceptErrCode (validate_post_content_request "instagram" (some "hello") none) =
      some ErrorCode.VALIDATION_ERROR ∧
    InstagramAdapter.post_content (some "hello") none none
        ⟨200, some "c1", none⟩ ⟨200, some "p1", none⟩ =
      (0, .error ⟨ErrorCode.MISSING_CONTENT, "Instagram posts require media_urls"⟩) :=
  (C5_instagram_missing_media (some "hello") none none
    ⟨200, some "c1", none⟩ ⟨200, some "p1", none⟩).2.2 rfl

/-- C6: with a media URL and non-empty text, Facebook's message body
carries both the image attachment and the text while Instagram's carries
only the attachment with the text dropped; without a media URL both build
a text-only body. -/
theorem C6_fb_ig_media_asymmetry (content u : String)
    (hc : content ≠ "") (hu : u ≠ "") :
    FacebookAdapter.buildMessage content (some u) =
      ⟨some content, some ⟨u, true⟩⟩ ∧
    InstagramAdapter.buildMessage content (some u) = ⟨none, some ⟨u⟩⟩ ∧
    (∀ c : String, FacebookAdapter.buildMessage c none = ⟨some c, none⟩ ∧
      InstagramAdapter.buildMessage c none = ⟨some c, none⟩) := by
  refine ⟨?_, ?_, fun c => ⟨rfl, rfl⟩⟩
  · simp [FacebookAdapter.buildMessage, hc, hu]
  · simp [InstagramAdapter.buildMessage, hu]

/-- Witness for C6: sending "hi" with an image URL keeps the text on
Facebook and drops it on Instagram. -/
theorem C6_witness :
    FacebookAdapter.buildMessage "hi" (some "http://x/i.png") =
      ⟨some "hi", some ⟨"http://x/i.png", true⟩⟩ ∧
    InstagramAdapter.buildMessage "hi" (some "http://x/i.png") =
      ⟨none, some ⟨"http://x/i.png"⟩⟩ :=
  ⟨(C6_fb_ig_media_asymmetry "hi" "http://x/i.png" (by decide) (by decide)).1,
   (C6_fb_ig_media_asymmetry "hi" "http://x/i.png" (by decide) (by decide)).2.1⟩

/-- C7: a WhatsApp send with a media URL produces an "image"-typed
payload carrying the media link and no text field; on a 2xx response the
returned message id is `messages[0].id`, and an absent or empty
`messages` array yields the id "unknown" with the call still
succeeding. -/
theorem C7_whatsapp_payload_and_id (recipient content u : String) (hu : u ≠ "")
    (media_url : Option String) (resp : HttpResponse WaBody) :
    (WhatsAppAdapter.buildPayload recipient content (some u)).type_ = "image" ∧
    (WhatsAppAdapter.buildPayload recipient content (some u)).image = some u ∧
    (WhatsAppAdapter.buildPayload recipient content (some u)).text = none ∧
    (is_success resp.status_code = true →
      (∀ m rest, resp.body.messages = some (m :: rest) →
        (WhatsAppAdapter.send_message recipient content media_url resp).2.2 =
          .ok ⟨m.id⟩) ∧
      (resp.body.messages = none ∨ resp.body.messages = some [] →
        (WhatsAppAdapter.send_message recipient content media_url resp).2.2 =
          .ok ⟨"unknown"⟩)) := by
  refine ⟨?_, ?_, ?_, ?_⟩
  · simp [WhatsAppAdapter.buildPayload, hu]
  · simp [WhatsAppAdapter.buildPayload, hu]
  · simp [WhatsAppAdapter.buildPayload, hu]
  · intro hs
    constructor
    · intro m rest hm
      simp [WhatsAppAdapter.send_message, hs, hm]
    · rintro (hm | hm) <;> simp [WhatsAppAdapter.send_message, hs, hm]

/-- Witness for C7: the end-to-end scenario — sending "hi" to
"+380991234567" against a 200 response `{"messages":[{"id":"wamid.1"}]}`
yields message id "wamid.1"; the image payload facts hold for a concrete
URL. -/
theorem C7_witness :
    (WhatsAppAdapter.buildPayload "+380991234567" "hi" (some "http://x/i.png")).text =
      none ∧
    (WhatsAppAdapter.send_message "+380991234567" "hi" none
        ⟨200, some [⟨"wamid.1"⟩], none⟩).2.2 = .ok ⟨"wamid.1"⟩ :=
  ⟨(C7_whatsapp_payload_and_id "+380991234567" "hi" "http://x/i.png" (by decide)
      none ⟨200, some [⟨"wamid.1"⟩], none⟩).2.2.1,
   ((C7_whatsapp_payload_and_id "+380991234567" "hi" "http://x/i.png" (by decide)
      none ⟨200, some [⟨"wamid.1"⟩], none⟩).2.2.2 rfl).1 ⟨"wamid.1"⟩ [] rfl⟩

/-- C8 counterexample: the recipient id "+380991234567\n" does not match
the E.164 pattern as the claim states it, yet the code's `re.match`-based
validation accepts it (`$` matches before a trailing newline), so with
demo mode off and no WhatsApp token configured the send fails with
AUTH_FAILED — an authentication error — rather than VALIDATION_ERROR. -/
theorem C8_counterexample :
    e164_pattern_strict "+380991234567\n" = false ∧
    validate_e164_phone "+380991234567\n" = true ∧
    exceptErrCode
        (handle_send_message_dispatch ⟨"tokF", "tokI", "", "", "v21.0", false⟩
          "whatsapp" "+380991234567\n") =
      some ErrorCode.AUTH_FAILED ∧
    ErrorCode.AUTH_FAILED ≠ ErrorCode.VALIDATION_ERROR := by
  refine ⟨by decide, by decide, rfl, by decide⟩

/-- C8 (amended): a WhatsApp send whose recipient id is rejected by the
code's E.164 regex check fails with VALIDATION_ERROR before the adapter
is resolved, with the same outcome for every configuration;
"380991234567" (missing the leading plus) is rejected, "+380991234567"
passes, and every id matching the strict E.164 pattern passes the
code's check — but the code's check (Python `re.match`) is looser than
the strict pattern, also accepting a single trailing newline and
non-ASCII Unicode digits, and such ids proceed to adapter resolution
where they can fail with authentication errors. -/
theorem C8_whatsapp_recipient_validation (s s₂ : Settings) (recipient_id : String) :
    (validate_e164_phone recipient_id = false →
      exceptErrCode (handle_send_message_dispatch s "whatsapp" recipient_id) =
        some ErrorCode.VALIDATION_ERROR ∧
      handle_send_message_dispatch s "whatsapp" recipient_id =
        handle_send_message_dispatch s₂ "whatsapp" recipient_id) ∧
    validate_e164_phone "380991234567" = false ∧
    validate_e164_phone "+380991234567" = true ∧
    (e164_pattern_strict recipient_id = true →
      validate_e164_phone recipient_id = true) ∧
    (validate_e164_phone recipient_id = true →
      validate_whatsapp_recipient recipient_id = .ok ()) := by
  refine ⟨?_, by decide, by decide, ?_, ?_⟩
  · intro h
    constructor <;>
      simp [handle_send_message_dispatch, validate_whatsapp_recipient, h,
        exceptErrCode, ValidationError]
  · intro h
    rcases hl : recipient_id.data with _ | ⟨c, _ | ⟨d, rest⟩⟩
    · simp [e164_pattern_strict, String.toList, hl] at h
    · simp [e164_pattern_strict, String.toList, hl] at h
    · simp only [e164_pattern_strict, String.toList, hl, Bool.and_eq_true,
        beq_iff_eq, decide_eq_true_eq] at h
      obtain ⟨⟨⟨⟨hc, hd⟩, hall⟩, hlen1⟩, hlen2⟩ := h
      have hmono : rest.all pyIsDecimalDigit = true := by
        simp only [List.all_eq_true] at hall ⊢
        intro x hx
        simp [pyIsDecimalDigit, hall x hx]
      simp [validate_e164_phone, String.toList, hl, e164DigitRun, hc, hd.1, hd.2,
        hmono, hlen1, hlen2]
  · intro h
    simp [validate_whatsapp_recipient, h]

/-- Witness for C8: with empty credentials, a WhatsApp send to
"380991234567" (missing the leading plus) fails with VALIDATION_ERROR. -/
theorem C8_witness :
    exceptErrCode
        (handle_send_message_dispatch ⟨"", "", "", "", "v21.0", false⟩
          "whatsapp" "380991234567") =
      some ErrorCode.VALIDATION_ERROR :=
  ((C8_whatsapp_recipient_validation ⟨"", "", "", "", "v21.0", false⟩
      ⟨"", "", "", "", "v21.0", false⟩ "380991234567").1 (by decide)).1

/-- C9: the Mock adapter's `get_messages` returns exactly `min(limit, 3)`
records for every nonnegative limit, independently of the requested
identifiers. -/
theorem C9_mock_get_messages_cap (now : String)
    (cid rid cid₂ rid₂ : Option String) (limit : Int) (h : 0 ≤ limit) :
    ((MockPlatformAdapter.get_messages now cid rid limit).length : Int) =
      min limit 3 ∧
    MockPlatformAdapter.get_messages now cid rid limit =
      MockPlatformAdapter.get_messages now cid₂ rid₂ limit := by
  constructor
  · simp [MockPlatformAdapter.get_messages]
    omega
  · rfl

/-- Witness for C9: limit 5 yields exactly 3 records and limit 1 exactly
1, for arbitrary identifiers. -/
theorem C9_witness :
    ((MockPlatformAdapter.get_messages "t0" (some "c") none 5).length : Int) =
      min 5 3 ∧
    ((MockPlatformAdapter.get_messages "t0" none (some "r") 1).length : Int) =
      min 1 3 :=
  ⟨(C9_mock_get_messages_cap "t0" (some "c") none none none 5 (by decide)).1,
   (C9_mock_get_messages_cap "t0" none (some "r") none none 1 (by decide)).1⟩

/-- C10: on a 2xx response the Facebook and Instagram `send_message`
return the response body's `message_id` field as-is; when the field is
absent the call still succeeds with an absent message id, with no error
and no "unknown" placeholder. -/
theorem C10_fb_ig_message_id_passthrough (recipient content : String)
    (media_url : Option String) (resp : HttpResponse FbSendBody)
    (h : is_success resp.status_code = true) :
    (FacebookAdapter.send_message recipient content media_url resp).2.2 =
      .ok ⟨resp.body.message_id⟩ ∧
    (InstagramAdapter.send_message recipient content media_url resp).2.2 =
      .ok ⟨resp.body.message_id⟩ ∧
    (resp.body.message_id = none →
      (FacebookAdapter.send_message recipient content media_url resp).2.2 =
        .ok ⟨none⟩ ∧
      (InstagramAdapter.send_message recipient content media_url resp).2.2 =
        .ok ⟨none⟩) := by
  refine ⟨?_, ?_, ?_⟩
  · simp [FacebookAdapter.send_message, h]
  · simp [InstagramAdapter.send_message, h]
  · intro hm
    constructor <;>
      simp [FacebookAdapter.send_message, InstagramAdapter.send_message, h, hm]

/-- Witness for C10: a 200 response whose body has no `message_id` still
succeeds on both platforms, returning an absent id. -/
theorem C10_witness :
    (FacebookAdapter.send_message "user1" "hi" none ⟨200, none, none⟩).2.2 =
      .ok ⟨none⟩ ∧
    (InstagramAdapter.send_message "user1" "hi" none ⟨200, none, none⟩).2.2 =
      .ok ⟨none⟩ :=
  (C10_fb_ig_message_id_passthrough "user1" "hi" none ⟨200, none, none⟩
    rfl).2.2 rfl

/-- Every backoff value of `wait_exponential(multiplier=1, min=1, max=10)`
lies between 1 and 10. -/
theorem wait_exponential_1_1_10_bounds (n : Nat) :
    1 ≤ wait_exponential 1 1 10 n ∧ wait_exponential 1 1 10 n ≤ 10 := by
  unfold wait_exponential
  constructor
  · exact le_trans (by decide) (Nat.le_max_left _ _)
  · exact Nat.max_le.mpr ⟨by decide, Nat.min_le_right _ _⟩

/-- Unrolling of `send_message_with_retry` over the outcomes of the three
permitted attempts. -/
theorem send_message_with_retry_unroll {A : Type}
    (attempt : Nat → Except MetaMCPError A) :
    send_message_with_retry attempt =
      match attempt 1 with
      | .ok a => (1, [], .ok a)
      | .error _ =>
        match attempt 2 with
        | .ok a => (2, [wait_exponential 1 1 10 1], .ok a)
        | .error _ =>
          match attempt 3 with
          | .ok a =>
            (3, [wait_exponential 1 1 10 1, wait_exponential 1 1 10 2], .ok a)
          | .error e =>
            (3, [wait_exponential 1 1 10 1, wait_exponential 1 1 10 2],
              .error e) := by
  show retryGo attempt (wait_exponential 1 1 10) 1 (1 + 1) = _
  rw [retryGo]
  cases h1 : attempt 1
  · rw [retryGo]
    cases h2 : attempt 2
    · rw [retryGo]
      cases h3 : attempt 3 <;> rfl
    · rfl
  · rfl

/-- C4: the send-message retry policy makes at most 3 attempts; when all
three fail the waits are the exponential backoff values (each between 1
and 10 time units) and the final failure is re-raised unchanged; the
other operations are a single attempt whose first failure is surfaced
immediately. -/
theorem C4_retry_policy {A : Type} (attempt : Nat → Except MetaMCPError A) :
    (send_message_with_retry attempt).1 ≤ 3 ∧
    (∀ e₁ e₂ e₃, attempt 1 = .error e₁ → attempt 2 = .error e₂ →
      attempt 3 = .error e₃ →
      send_message_with_retry attempt =
        (3, [wait_exponential 1 1 10 1, wait_exponential 1 1 10 2], .error e₃)) ∧
    (∀ w ∈ (send_message_with_retry attempt).2.1, 1 ≤ w ∧ w ≤ 10) ∧
    (∀ (E B : Type) (att : Nat → Except E B) (e : E), att 1 = .error e →
      call_without_retry att = (1, [], .error e)) := by
  refine ⟨?_, ?_, ?_, ?_⟩
  · rw [send_message_with_retry_unroll]
    cases h1 : attempt 1 <;> cases h2 : attempt 2 <;> cases h3 : attempt 3 <;>
      simp
  · intro e₁ e₂ e₃ h1 h2 h3
    rw [send_message_with_retry_unroll, h1, h2, h3]
  · rw [send_message_with_retry_unroll]
    cases h1 : attempt 1 <;> cases h2 : attempt 2 <;> cases h3 : attempt 3 <;>
      · intro w hw
        simp at hw
        all_goals
          first
          | (rcases hw with rfl | rfl <;> exact wait_exponential_1_1_10_bounds _)
          | (subst hw; exact wait_exponential_1_1_10_bounds _)
  · intro E B att e h
    simp [call_without_retry, h]

/-- Witness for C4: an always-failing attempt sequence is retried exactly
3 times, sleeps 2 then 4 time units, and re-raises the last error; a
failing non-retried operation surfaces its first failure at once. -/
theorem C4_witness :
    send_message_with_retry (A := Unit)
        (fun _ => .error ⟨ErrorCode.API_ERROR, "boom"⟩) =
      (3, [2, 4], .error ⟨ErrorCode.API_ERROR, "boom"⟩) ∧
    call_without_retry (fun _ =>
        (.error ⟨ErrorCode.API_ERROR, "boom"⟩ : Except MetaMCPError Unit)) =
      (1, [], .error ⟨ErrorCode.API_ERROR, "boom"⟩) := by
  have h := C4_retry_policy (A := Unit)
    (fun _ => .error ⟨ErrorCode.API_ERROR, "boom"⟩)
  refine ⟨?_, h.2.2.2 MetaMCPError Unit _ _ rfl⟩
  rw [h.2.1 _ _ _ rfl rfl rfl]
  rfl

end MetaMCP
